import Mathlib

set_option maxHeartbeats 1000000

/-!
Shallow embedding of the wa_meow gateway server, translated from
src/cmd/server/main.go (the authoritative server variant: the copy of the
file containing downloadMediaHandler, group handlers and the WhatsAppClient
interface), src/cmd/server/mock_client.go and the client wrapper.

Modelling conventions:
- Go byte is Fin 256; Go []byte is List (Fin 256).
- Go float64 fields (latitude/longitude) are modelled as Rat; the server only
  copies these values, it never performs floating-point arithmetic on them.
- Go channels with capacity are modelled as lists together with a capacity
  constant; a select-with-default send is a non-blocking enqueue that drops
  the new element when the list is at capacity (drop-newest).
- The sessions map is a function Nat -> Option UserSession.
- Library primitives that live outside this repository (crypto/aes block
  cipher, the GHASH tag of crypto/cipher GCM, the whatsmeow client calls,
  wall-clock time) enter as explicit parameters or oracle records; everything
  in this repository (base64 framing, nonce layout, handler control flow,
  queue discipline, payload extraction) is defined concretely below.
-/

abbrev Byte := Fin 256

namespace B64

/-- Character for a 6-bit group, standard base64 alphabet (encoding/base64 StdEncoding). -/
def sixToChar (s : Fin 64) : Char :=
  Char.ofNat (if s.val < 26 then 65 + s.val
    else if s.val < 52 then 97 + (s.val - 26)
    else if s.val < 62 then 48 + (s.val - 52)
    else if s.val = 62 then 43 else 47)

/-- Inverse character lookup; none for characters outside the alphabet. -/
def charToSix (c : Char) : Option (Fin 64) :=
  let n := c.toNat
  if h : 65 ≤ n ∧ n ≤ 90 then some ⟨n - 65, by omega⟩
  else if h : 97 ≤ n ∧ n ≤ 122 then some ⟨n - 97 + 26, by omega⟩
  else if h : 48 ≤ n ∧ n ≤ 57 then some ⟨n - 48 + 52, by omega⟩
  else if n = 43 then some ⟨62, by omega⟩
  else if n = 47 then some ⟨63, by omega⟩
  else none

def sexA (a : Byte) : Fin 64 := ⟨a.val / 4, by have := a.isLt; omega⟩

def sexAB (a b : Byte) : Fin 64 :=
  ⟨a.val % 4 * 16 + b.val / 16, by have := a.isLt; have := b.isLt; omega⟩

def sexBC (b c : Byte) : Fin 64 :=
  ⟨b.val % 16 * 4 + c.val / 64, by have := b.isLt; have := c.isLt; omega⟩

def sexC (c : Byte) : Fin 64 := ⟨c.val % 64, by have := c.isLt; omega⟩

def deSexA (s1 s2 : Fin 64) : Byte :=
  ⟨s1.val * 4 + s2.val / 16, by have := s1.isLt; have := s2.isLt; omega⟩

def deSexB (s2 s3 : Fin 64) : Byte :=
  ⟨s2.val % 16 * 16 + s3.val / 4, by have := s2.isLt; have := s3.isLt; omega⟩

def deSexC (s3 s4 : Fin 64) : Byte :=
  ⟨s3.val % 4 * 64 + s4.val, by have := s3.isLt; have := s4.isLt; omega⟩

/-- Standard base64 encoding with padding, as in encoding/base64 StdEncoding. -/
def b64Encode : List Byte → List Char
  | [] => []
  | [a] => [sixToChar (sexA a), sixToChar (sexAB a 0), '=', '=']
  | [a, b] => [sixToChar (sexA a), sixToChar (sexAB a b), sixToChar (sexBC b 0), '=']
  | a :: b :: c :: rest =>
    sixToChar (sexA a) :: sixToChar (sexAB a b) :: sixToChar (sexBC b c) ::
      sixToChar (sexC c) :: b64Encode rest

/-- Standard base64 decoding; none on malformed input. -/
def b64Decode : List Char → Option (List Byte)
  | [] => some []
  | c1 :: c2 :: c3 :: c4 :: rest =>
    match charToSix c1, charToSix c2 with
    | some s1, some s2 =>
      if c3 = '=' then
        if c4 = '=' ∧ rest = [] then some [deSexA s1 s2] else none
      else
        match charToSix c3 with
        | some s3 =>
          if c4 = '=' then
            if rest = [] then some [deSexA s1 s2, deSexB s2 s3] else none
          else
            match charToSix c4 with
            | some s4 =>
              match b64Decode rest with
              | some tl => some (deSexA s1 s2 :: deSexB s2 s3 :: deSexC s3 s4 :: tl)
              | none => none
            | none => none
        | none => none
    | _, _ => none
  | _ => none

def b64EncodeStr (l : List Byte) : String := String.mk (b64Encode l)

def b64DecodeStr (s : String) : Option (List Byte) := b64Decode s.data

end B64

namespace GCM

/-- 128-bit block normalization (AES blocks are always 16 bytes). -/
def pad16 (l : List Byte) : List Byte := (l ++ List.replicate 16 (0 : Byte)).take 16

/-- 32-bit big-endian counter suffix of a GCM counter block. -/
def be32 (n : Nat) : List Byte :=
  [⟨n / 16777216 % 256, by omega⟩, ⟨n / 65536 % 256, by omega⟩,
   ⟨n / 256 % 256, by omega⟩, ⟨n % 256, by omega⟩]

def byteXor (a b : Byte) : Byte :=
  ⟨a.val ^^^ b.val, Nat.xor_lt_two_pow (n := 8) a.isLt b.isLt⟩

def xorBytes (xs ks : List Byte) : List Byte := List.zipWith byteXor xs ks

/-- Concatenation of k CTR keystream blocks starting at counter value i. -/
def ksBlocks (E : List Byte → List Byte) (nonce : List Byte) : Nat → Nat → List Byte
  | 0, _ => []
  | k + 1, i => pad16 (E (nonce ++ be32 i)) ++ ksBlocks E nonce k (i + 1)

/-- First n bytes of the GCM CTR keystream (counter starts at 2 for payload blocks). -/
def keystream (E : List Byte → List Byte) (nonce : List Byte) (n : Nat) : List Byte :=
  (ksBlocks E nonce ((n + 15) / 16) 2).take n

/-- GCM Seal: CTR-encrypted payload followed by the 16-byte authentication tag.
The block cipher E and the tag computation tagF are external stdlib primitives
(crypto/aes, crypto/cipher GHASH) and enter as parameters. -/
def gcmSeal (E : List Byte → List Byte) (tagF : List Byte → List Byte → List Byte)
    (nonce pt : List Byte) : List Byte :=
  let ct := xorBytes pt (keystream E nonce pt.length)
  ct ++ pad16 (tagF nonce ct)

/-- GCM Open: split off the 16-byte tag, verify it, CTR-decrypt. -/
def gcmOpen (E : List Byte → List Byte) (tagF : List Byte → List Byte → List Byte)
    (nonce data : List Byte) : Option (List Byte) :=
  if data.length < 16 then none
  else
    let ct := data.take (data.length - 16)
    let tag := data.drop (data.length - 16)
    if tag = pad16 (tagF nonce ct) then some (xorBytes ct (keystream E nonce ct.length))
    else none

end GCM

/-! Inbound event fan-out data model (UserSession.handleEvent). -/

structure MessagePayload where
  id : String := ""
  chatJID : String := ""
  senderJID : String := ""
  senderName : String := ""
  text : String := ""
  timestamp : Int := 0
  isFromMe : Bool := false
  mediaType : String := ""
  mediaURL : String := ""
  mimeType : String := ""
  caption : String := ""
  latitude : Rat := 0
  longitude : Rat := 0
  contactName : String := ""
  contactVCard : String := ""
  mediaKey : List Byte := []
  directPath : String := ""
  fileEncSHA256 : List Byte := []
  fileSHA256 : List Byte := []
  fileLength : Nat := 0
  deriving DecidableEq

structure MessageEvent where
  type : String
  payload : MessagePayload
  deriving DecidableEq

structure MessageInfo where
  id : String
  chatJID : String
  senderJID : String
  pushName : String
  timestamp : Int
  isFromMe : Bool
  deriving DecidableEq

structure ExtendedTextMsg where
  text : Option String
  deriving DecidableEq

structure ImageMsg where
  caption : Option String := none
  mimetype : Option String := none
  url : Option String := none
  directPath : Option String := none
  mediaKey : List Byte := []
  fileEncSHA256 : List Byte := []
  fileSHA256 : List Byte := []
  fileLength : Option Nat := none
  deriving DecidableEq

structure AudioMsg where
  ptt : Option Bool := none
  url : Option String := none
  directPath : Option String := none
  mediaKey : List Byte := []
  deriving DecidableEq

structure LocationMsg where
  degreesLatitude : Option Rat := none
  degreesLongitude : Option Rat := none
  name : Option String := none
  address : Option String := none
  deriving DecidableEq

structure LiveLocationMsg where
  degreesLatitude : Option Rat := none
  degreesLongitude : Option Rat := none
  caption : Option String := none
  deriving DecidableEq

structure ContactMsg where
  displayName : Option String := none
  vcard : Option String := none
  deriving DecidableEq

/-- The waE2E.Message fields read by the server (AudioMessage is carried by the
upstream type but, as the theorems below establish, never read by handleEvent). -/
structure WAMessage where
  conversation : Option String := none
  extendedTextMessage : Option ExtendedTextMsg := none
  imageMessage : Option ImageMsg := none
  audioMessage : Option AudioMsg := none
  locationMessage : Option LocationMsg := none
  liveLocationMessage : Option LiveLocationMsg := none
  contactMessage : Option ContactMsg := none
  contactsArrayMessage : Option (List ContactMsg) := none
  deriving DecidableEq

/-- Upstream events: a Message event or anything else (ignored by the switch). -/
inductive WAEvent where
  | message (info : MessageInfo) (msg : WAMessage)
  | other
  deriving DecidableEq

def eventQueueCap : Nat := 100

def qrQueueCap : Nat := 10

/-- Non-blocking send on the session EventChan (select with default): the new
element is dropped when the queue is at capacity. -/
def enqueueEvent (q : List MessageEvent) (e : MessageEvent) : List MessageEvent :=
  if q.length < eventQueueCap then q ++ [e] else q

/-- Non-blocking send on the session QRChannel (capacity 10). -/
def enqueueQR (q : List String) (c : String) : List String :=
  if q.length < qrQueueCap then q ++ [c] else q

/-- Non-blocking send on the LoginDone latch (capacity 1). -/
def pushLoginDone (q : List Bool) : List Bool :=
  if q.length < 1 then q ++ [true] else q

def basePayload (info : MessageInfo) : MessagePayload :=
  { id := info.id
    chatJID := info.chatJID
    senderJID := info.senderJID
    senderName := info.pushName
    timestamp := info.timestamp
    isFromMe := info.isFromMe }

/-- Sequential construction of the normalized payload, one branch per content
kind, in source order (text, image, location, live location, contact). -/
def buildPayload (info : MessageInfo) (msg : WAMessage) : MessagePayload :=
  let p := basePayload info
  let p := match msg.conversation with
    | some t => { p with text := t }
    | none => match msg.extendedTextMessage with
      | some ext => match ext.text with
        | some t => { p with text := t }
        | none => p
      | none => p
  let p := match msg.imageMessage with
    | some img =>
      { p with
        mediaType := "image"
        caption := img.caption.getD p.caption
        mimeType := img.mimetype.getD p.mimeType
        mediaURL := img.url.getD p.mediaURL
        directPath := img.directPath.getD p.directPath
        mediaKey := img.mediaKey
        fileEncSHA256 := img.fileEncSHA256
        fileSHA256 := img.fileSHA256
        fileLength := img.fileLength.getD p.fileLength }
    | none => p
  let p := match msg.locationMessage with
    | some loc =>
      let p1 := { p with
        mediaType := "location"
        latitude := loc.degreesLatitude.getD p.latitude
        longitude := loc.degreesLongitude.getD p.longitude }
      let p2 := match loc.name with
        | some n => { p1 with text := n }
        | none => p1
      match loc.address with
      | some a =>
        if p2.text ≠ "" then { p2 with text := p2.text ++ " - " ++ a }
        else { p2 with text := a }
      | none => p2
    | none => p
  let p := match msg.liveLocationMessage with
    | some loc =>
      { p with
        mediaType := "live_location"
        latitude := loc.degreesLatitude.getD p.latitude
        longitude := loc.degreesLongitude.getD p.longitude
        caption := loc.caption.getD p.caption }
    | none => p
  match msg.contactMessage with
  | some ct =>
    { p with
      mediaType := "contact"
      contactName := ct.displayName.getD p.contactName
      contactVCard := ct.vcard.getD p.contactVCard }
  | none => p

/-- Payload built for each entry of a ContactsArrayMessage. -/
def contactPayload (info : MessageInfo) (ct : ContactMsg) : MessagePayload :=
  { basePayload info with
    mediaType := "contact"
    contactName := ct.displayName.getD ""
    contactVCard := ct.vcard.getD "" }

/-- True exactly when one of the hasContent assignments of the source fires. -/
def msgHasContent (msg : WAMessage) : Bool :=
  msg.conversation.isSome
  || (match msg.extendedTextMessage with
      | some e => e.text.isSome
      | none => false)
  || msg.imageMessage.isSome
  || msg.locationMessage.isSome
  || msg.liveLocationMessage.isSome
  || msg.contactMessage.isSome

/-- UserSession.handleEvent acting on the session event queue: contact-array
entries are enqueued first (inside the branch), then the merged payload is
enqueued when hasContent was set. Non-Message events are ignored. -/
def handleEvent (q : List MessageEvent) (evt : WAEvent) : List MessageEvent :=
  match evt with
  | .other => q
  | .message info msg =>
    let q1 := match msg.contactsArrayMessage with
      | some cs => cs.foldl (fun acc ct => enqueueEvent acc ⟨"message", contactPayload info ct⟩) q
      | none => q
    if msgHasContent msg then enqueueEvent q1 ⟨"message", buildPayload info msg⟩ else q1

/-- Spec-side reading (for the refinement comparison in claim C4) of the phrase
"carries at least one non-empty content field (text, caption, media, location,
or contact data)": every payload field other than the common envelope fields
id, chat_jid, sender_jid, sender_name, timestamp, is_from_me is counted. -/
def specPayloadHasNonEmptyContent (p : MessagePayload) : Bool :=
  p.text != "" || p.caption != "" || p.mediaType != "" || p.mediaURL != ""
  || p.mimeType != "" || p.directPath != ""
  || !p.mediaKey.isEmpty || !p.fileEncSHA256.isEmpty || !p.fileSHA256.isEmpty
  || p.fileLength != 0 || p.latitude != 0 || p.longitude != 0
  || p.contactName != "" || p.contactVCard != ""

/-- The condition under which handleEvent emits at least one payload: some
content branch matched, or a non-empty contacts array was present. -/
def contentBranchMatch (msg : WAMessage) : Bool :=
  msgHasContent msg
  || (match msg.contactsArrayMessage with
      | some cs => !cs.isEmpty
      | none => false)

/-! Session manager, encrypted persistence, and HTTP handlers. -/

structure ClientState where
  deviceId : Option String
  connected : Bool
  loggedIn : Bool
  deriving DecidableEq

structure UserSession where
  userID : Nat
  client : ClientState
  dbPath : String
  lastUsed : Nat
  qrCodes : List String
  loginDone : List Bool
  eventQueue : List MessageEvent
  deriving DecidableEq

structure SessionManager where
  sessions : Nat → Option UserSession
  dataDir : String
  joBotURL : String
  encryptKey : Option (List Byte)

/-- NewSessionManager: a non-empty WHATSAPP_SESSION_KEY is base64-decoded and
kept only when exactly 32 bytes; otherwise the key is nil and persistence is
disabled (construction never fails). -/
def NewSessionManager (dataDir joBotURL encryptKeyB64 : String) : SessionManager :=
  let encryptKey : Option (List Byte) :=
    if encryptKeyB64 = "" then none
    else match B64.b64DecodeStr encryptKeyB64 with
      | some k => if k.length = 32 then some k else none
      | none => none
  { sessions := fun _ => none
    dataDir := dataDir
    joBotURL := joBotURL
    encryptKey := encryptKey }

/-- SessionManager.encrypt: base64(nonce plus GCM-sealed payload). The AES block
cipher E (keyed) and the GCM tag function tagF are stdlib primitives passed as
parameters; the 12-byte nonce drawn from crypto/rand is passed explicitly. -/
def SessionManager.encrypt (E : List Byte → List Byte → List Byte)
    (tagF : List Byte → List Byte → List Byte) (m : SessionManager)
    (nonce data : List Byte) : Except String String :=
  match m.encryptKey with
  | none => .error "no encryption key"
  | some key =>
    if key.length = 16 ∨ key.length = 24 ∨ key.length = 32 then
      .ok (B64.b64EncodeStr (nonce ++ GCM.gcmSeal (E key) tagF nonce data))
    else .error "invalid key size"

/-- SessionManager.decrypt: base64-decode, split the 12-byte nonce, GCM-open. -/
def SessionManager.decrypt (E : List Byte → List Byte → List Byte)
    (tagF : List Byte → List Byte → List Byte) (m : SessionManager)
    (encoded : String) : Except String (List Byte) :=
  match m.encryptKey with
  | none => .error "no encryption key"
  | some key =>
    if key.length = 16 ∨ key.length = 24 ∨ key.length = 32 then
      match B64.b64DecodeStr encoded with
      | none => .error "illegal base64 data"
      | some data =>
        if data.length < 12 then .error "ciphertext too short"
        else
          match GCM.gcmOpen (E key) tagF (data.take 12) (data.drop 12) with
          | some pt => .ok pt
          | none => .error "message authentication failed"
    else .error "invalid key size"

/-- External effects of GetOrCreateSession for a user with no existing session:
backup restore plus sqlstore open plus GetFirstDevice, collapsed into the
resulting device identity (error aborts creation), and the current time. -/
structure CreateOracle where
  storeDevice : Except String (Option String)
  now : Nat

def freshSession (m : SessionManager) (uid : Nat) (dev : Option String)
    (now : Nat) : UserSession :=
  { userID := uid
    client := { deviceId := dev, connected := false, loggedIn := false }
    dbPath := m.dataDir ++ "/user_" ++ toString uid ++ ".db"
    lastUsed := now
    qrCodes := []
    loginDone := []
    eventQueue := [] }

/-- SessionManager.GetOrCreateSession under the write lock: return the existing
session (touching LastUsed), or restore-then-construct and insert it. -/
def getOrCreateSession (m : SessionManager) (uid : Nat) (o : CreateOracle) :
    Except String (UserSession × SessionManager) :=
  match m.sessions uid with
  | some s =>
    let s' := { s with lastUsed := o.now }
    .ok (s', { m with sessions := fun u => if u = uid then some s' else m.sessions u })
  | none =>
    match o.storeDevice with
    | .error e => .error e
    | .ok dev =>
      let s := freshSession m uid dev o.now
      .ok (s, { m with sessions := fun u => if u = uid then some s else m.sessions u })

/-- SessionManager.RemoveSession: when present, disconnect, attempt the backup
save (result ignored), and delete the entry; otherwise a no-op. Returns the new
state together with whether Disconnect was called and whether a save was
attempted. -/
def removeSession (m : SessionManager) (uid : Nat) (_saveResult : Except String Unit) :
    SessionManager × Bool × Bool :=
  match m.sessions uid with
  | some _ =>
    ({ m with sessions := fun u => if u = uid then none else m.sessions u }, true, true)
  | none => (m, false, false)

/-- Result of Connect as reported by the upstream client wrapper. -/
structure ClientEnv where
  connectResult : Except String Unit

inductive CreateSessionBody where
  | errorMsg (msg : String)
  | needsQR (userId : Nat)
  | connected (userId : Nat) (phone : String)
  deriving DecidableEq

structure CreateSessionResult where
  status : Nat
  body : CreateSessionBody
  manager : SessionManager
  qrChannelObtained : Bool

/-- createSessionHandler: method check, JSON decode (none models a decode
error; a missing user_id decodes to 0 and is not validated), GetOrCreateSession,
then either the QR path (store has no device id: obtain the QR channel, connect,
spawn the pump) or the paired path (connect if needed, reply connected). -/
def createSessionHandler (m : SessionManager) (method : String) (body : Option Nat)
    (o : CreateOracle) (env : ClientEnv) : CreateSessionResult :=
  if method ≠ "POST" then ⟨405, .errorMsg "method not allowed", m, false⟩
  else
    match body with
    | none => ⟨400, .errorMsg "invalid json", m, false⟩
    | some uid =>
      match getOrCreateSession m uid o with
      | .error e => ⟨500, .errorMsg e, m, false⟩
      | .ok (s, m') =>
        match s.client.deviceId with
        | none =>
          match env.connectResult with
          | .error e => ⟨500, .errorMsg e, m', true⟩
          | .ok _ => ⟨200, .needsQR uid, m', true⟩
        | some phone =>
          if s.client.connected then ⟨200, .connected uid phone, m', false⟩
          else
            match env.connectResult with
            | .error e => ⟨500, .errorMsg e, m', false⟩
            | .ok _ => ⟨200, .connected uid phone, m', false⟩

/-- Status code produced by the validation and lookup part of getQRHandler
(the SSE loop follows only on 200). -/
def getQRHandlerStatus (m : SessionManager) (uid : Nat) : Nat :=
  if uid = 0 then 400
  else match m.sessions uid with
    | none => 404
    | some _ => 200

/-- Status code of getStatusHandler: 400 on missing or zero user_id; otherwise
200 regardless of whether a session exists. -/
def getStatusHandlerStatus (uid : Nat) : Nat :=
  if uid = 0 then 400 else 200

/-- Status code of saveSessionHandler after the method check. -/
def saveSessionHandlerStatus (uid : Nat) : Nat :=
  if uid = 0 then 400 else 200

/-- Status code produced by the validation and lookup part of eventsHandler. -/
def eventsHandlerStatus (m : SessionManager) (uid : Nat) : Nat :=
  if uid = 0 then 400
  else match m.sessions uid with
    | none => 404
    | some _ => 200

structure DeleteSessionResult where
  status : Nat
  body : String
  manager : SessionManager
  disconnectCalled : Bool
  saveAttempted : Bool

/-- deleteSessionHandler: DELETE only, user_id required, RemoveSession always
followed by a 200 disconnected response. -/
def deleteSessionHandler (m : SessionManager) (method : String) (uid : Nat)
    (saveResult : Except String Unit) : DeleteSessionResult :=
  if method ≠ "DELETE" then ⟨405, "method not allowed", m, false, false⟩
  else if uid = 0 then ⟨400, "user_id required", m, false, false⟩
  else
    let r := removeSession m uid saveResult
    ⟨200, "disconnected", r.1, r.2.1, r.2.2⟩

structure MediaDownloadReq where
  userID : Nat
  url : String := ""
  directPath : String := ""
  mediaKey : List Byte := []
  fileEncSHA256 : List Byte := []
  fileSHA256 : List Byte := []
  fileLength : Nat := 0
  mimeType : String := ""
  deriving DecidableEq

inductive MediaDownloadBody where
  | errorMsg (msg : String)
  | mediaData (dataB64 : String) (mimeType : String) (size : Nat)
  deriving DecidableEq

structure MediaDownloadResult where
  status : Nat
  body : MediaDownloadBody
  downloadAttempts : Nat
  deriving DecidableEq

/-- downloadMediaHandler: method check, JSON decode, session lookup, login
check, then a single Download call on a minimal ImageMessage built from the
request descriptor; an error yields 500 at once, success yields base64 data.
downloadResult is the outcome of that one upstream Download call and
downloadAttempts counts how many Download calls were issued. -/
def downloadMediaHandler (m : SessionManager) (method : String)
    (body : Option MediaDownloadReq) (downloadResult : Except String (List Byte)) :
    MediaDownloadResult :=
  if method ≠ "POST" then ⟨405, .errorMsg "method not allowed", 0⟩
  else
    match body with
    | none => ⟨400, .errorMsg "invalid json", 0⟩
    | some req =>
      match m.sessions req.userID with
      | none => ⟨404, .errorMsg "session not found", 0⟩
      | some s =>
        if !s.client.loggedIn then ⟨400, .errorMsg "not logged in", 0⟩
        else
          match downloadResult with
          | .error e => ⟨500, .errorMsg ("failed to download: " ++ e), 1⟩
          | .ok data => ⟨200, .mediaData (B64.b64EncodeStr data) req.mimeType data.length, 1⟩

/-! Concrete fixtures used by the counterexamples and witnesses below. -/

def info0 : MessageInfo :=
  { id := "m1"
    chatJID := "c@s.whatsapp.net"
    senderJID := "s@s.whatsapp.net"
    pushName := ""
    timestamp := 1700000000
    isFromMe := false }

/-- A Message whose Conversation field is present but empty. -/
def msgConvEmpty : WAMessage := { conversation := some "" }

/-- A Message carrying only a push-to-talk AudioMessage. -/
def msgAudioOnly : WAMessage := { audioMessage := some { ptt := some true } }

/-- A Message carrying text together with an image. -/
def msgTextImage : WAMessage :=
  { conversation := some "hi"
    imageMessage := some { caption := some "pic", mimetype := some "image/jpeg" } }

def ev0 : MessageEvent := ⟨"message", basePayload info0⟩

/-- A session that is paired, connected and logged in. -/
def sessionLive (uid : Nat) : UserSession :=
  { userID := uid
    client := { deviceId := some "15551234567", connected := true, loggedIn := true }
    dbPath := "/data/whatsapp/user_" ++ toString uid ++ ".db"
    lastUsed := 0
    qrCodes := []
    loginDone := []
    eventQueue := [] }

/-- A session that is paired but currently disconnected. -/
def sessionPairedDown (uid : Nat) : UserSession :=
  { sessionLive uid with
    client := { deviceId := some "15551234567", connected := false, loggedIn := false } }

def mgrWith (uid : Nat) (s : UserSession) : SessionManager :=
  { sessions := fun u => if u = uid then some s else none
    dataDir := "/data/whatsapp"
    joBotURL := ""
    encryptKey := none }

def mgrEmpty : SessionManager :=
  { sessions := fun _ => none
    dataDir := "/data/whatsapp"
    joBotURL := ""
    encryptKey := none }

def req1 : MediaDownloadReq :=
  { userID := 7
    url := "https://mmg.whatsapp.net/d/f/abc"
    directPath := "/v/t62/abc"
    mediaKey := [1, 2, 3]
    fileEncSHA256 := [4]
    fileSHA256 := [5]
    fileLength := 512
    mimeType := "audio/ogg" }

def oracleFresh : CreateOracle := { storeDevice := .ok none, now := 1 }

def oracleNoop : CreateOracle := { storeDevice := .error "unused", now := 1 }

def envOk : ClientEnv := { connectResult := .ok () }

def envFail : ClientEnv := { connectResult := .error "websocket dial failed" }

/-- Identity block function standing in for a concrete AES instance. -/
def idCipher : List Byte → List Byte → List Byte := fun _ b => b

/-- Constant tag function standing in for a concrete GHASH instance. -/
def zeroTag : List Byte → List Byte → List Byte := fun _ _ => []

def key32 : List Byte := List.replicate 32 0

def mgrKeyed : SessionManager := { mgrEmpty with encryptKey := some key32 }

def nonceA : List Byte := List.replicate 12 0

def nonceB : List Byte := 1 :: List.replicate 11 0

def ptSample : List Byte := [104, 105]

/-! Validation-and-lookup chains of the remaining handlers that take a
user_id. The query-string handlers guard userID == 0 with a 400; the
JSON-body handlers have no such guard and fall through to the session
lookup. Fields that do not influence the status code are carried in the
request records but not read. -/

/-- Status code of getChatsHandler: user_id check, session lookup, login
check; group and contact listing errors are tolerated and the chat list is
always answered 200. -/
def getChatsHandlerStatus (m : SessionManager) (uid : Nat) : Nat :=
  if uid = 0 then 400
  else match m.sessions uid with
    | none => 404
    | some s => if !s.client.loggedIn then 400 else 200

/-- Status code of getGroupInfoHandler: user_id check, group_jid check,
session lookup, login check, JID parse (jidValid), then GetGroupInfo. -/
def getGroupInfoHandlerStatus (m : SessionManager) (uid : Nat) (groupJid : String)
    (jidValid : Bool) (infoResult : Except String Unit) : Nat :=
  if uid = 0 then 400
  else if groupJid = "" then 400
  else match m.sessions uid with
    | none => 404
    | some s =>
      if !s.client.loggedIn then 400
      else if !jidValid then 400
      else match infoResult with
        | .error _ => 500
        | .ok _ => 200

/-- Status code of listGroupParticipantsHandler (same chain as group info). -/
def listGroupParticipantsHandlerStatus (m : SessionManager) (uid : Nat) (groupJid : String)
    (jidValid : Bool) (infoResult : Except String Unit) : Nat :=
  if uid = 0 then 400
  else if groupJid = "" then 400
  else match m.sessions uid with
    | none => 404
    | some s =>
      if !s.client.loggedIn then 400
      else if !jidValid then 400
      else match infoResult with
        | .error _ => 500
        | .ok _ => 200

structure SendMessageReq where
  userID : Nat
  chatJID : String := ""
  text : String := ""
  replyTo : String := ""
  deriving DecidableEq

/-- Status code of sendMessageHandler: method, JSON decode, session lookup
(no user_id validation), login check, JID parse, SendMessage. -/
def sendMessageHandlerStatus (m : SessionManager) (method : String)
    (body : Option SendMessageReq) (jidValid : Bool)
    (sendResult : Except String Unit) : Nat :=
  if method ≠ "POST" then 405
  else match body with
    | none => 400
    | some req =>
      match m.sessions req.userID with
      | none => 404
      | some s =>
        if !s.client.loggedIn then 400
        else if !jidValid then 400
        else match sendResult with
          | .error _ => 500
          | .ok _ => 200

structure SendReactionReq where
  userID : Nat
  chatJID : String := ""
  messageID : String := ""
  emoji : String := ""
  deriving DecidableEq

/-- Status code of sendReactionHandler (same chain as send). -/
def sendReactionHandlerStatus (m : SessionManager) (method : String)
    (body : Option SendReactionReq) (jidValid : Bool)
    (sendResult : Except String Unit) : Nat :=
  if method ≠ "POST" then 405
  else match body with
    | none => 400
    | some req =>
      match m.sessions req.userID with
      | none => 404
      | some s =>
        if !s.client.loggedIn then 400
        else if !jidValid then 400
        else match sendResult with
          | .error _ => 500
          | .ok _ => 200

structure SetTypingReq where
  userID : Nat
  chatJID : String := ""
  typing : Bool := false
  deriving DecidableEq

/-- Status code of setTypingHandler: same chain, ending in SendChatPresence. -/
def setTypingHandlerStatus (m : SessionManager) (method : String)
    (body : Option SetTypingReq) (jidValid : Bool)
    (presenceResult : Except String Unit) : Nat :=
  if method ≠ "POST" then 405
  else match body with
    | none => 400
    | some req =>
      match m.sessions req.userID with
      | none => 404
      | some s =>
        if !s.client.loggedIn then 400
        else if !jidValid then 400
        else match presenceResult with
          | .error _ => 500
          | .ok _ => 200

structure SendImageReq where
  userID : Nat
  chatJID : String := ""
  imageB64 : String := ""
  mimeType : String := ""
  caption : String := ""
  deriving DecidableEq

/-- Status code of sendImageHandler: method, decode, session lookup, login,
JID parse, base64 image decode, Upload, SendMessage. -/
def sendImageHandlerStatus (m : SessionManager) (method : String)
    (body : Option SendImageReq) (jidValid imageDecodeOk : Bool)
    (uploadResult sendResult : Except String Unit) : Nat :=
  if method ≠ "POST" then 405
  else match body with
    | none => 400
    | some req =>
      match m.sessions req.userID with
      | none => 404
      | some s =>
        if !s.client.loggedIn then 400
        else if !jidValid then 400
        else if !imageDecodeOk then 400
        else match uploadResult with
          | .error _ => 500
          | .ok _ =>
            match sendResult with
            | .error _ => 500
            | .ok _ => 200

structure SendLocationReq where
  userID : Nat
  chatJID : String := ""
  latitude : Rat := 0
  longitude : Rat := 0
  name : String := ""
  address : String := ""
  deriving DecidableEq

/-- Status code of sendLocationHandler (same chain as send). -/
def sendLocationHandlerStatus (m : SessionManager) (method : String)
    (body : Option SendLocationReq) (jidValid : Bool)
    (sendResult : Except String Unit) : Nat :=
  if method ≠ "POST" then 405
  else match body with
    | none => 400
    | some req =>
      match m.sessions req.userID with
      | none => 404
      | some s =>
        if !s.client.loggedIn then 400
        else if !jidValid then 400
        else match sendResult with
          | .error _ => 500
          | .ok _ => 200

/-! Helper lemmas: base64. -/

theorem B64.charToSix_sixToChar (s : Fin 64) : B64.charToSix (B64.sixToChar s) = some s := by
  revert s
  decide

theorem B64.sixToChar_ne_pad (s : Fin 64) : B64.sixToChar s ≠ '=' := by
  revert s
  decide

theorem B64.deSexA_enc (a b : Byte) : B64.deSexA (B64.sexA a) (B64.sexAB a b) = a := by
  have ha := a.isLt
  have hb := b.isLt
  apply Fin.ext
  simp only [B64.deSexA, B64.sexA, B64.sexAB]
  omega

theorem B64.deSexB_enc (a b c : Byte) : B64.deSexB (B64.sexAB a b) (B64.sexBC b c) = b := by
  have ha := a.isLt
  have hb := b.isLt
  have hc := c.isLt
  apply Fin.ext
  simp only [B64.deSexB, B64.sexAB, B64.sexBC]
  omega

theorem B64.deSexC_enc (b c : Byte) : B64.deSexC (B64.sexBC b c) (B64.sexC c) = c := by
  have hb := b.isLt
  have hc := c.isLt
  apply Fin.ext
  simp only [B64.deSexC, B64.sexBC, B64.sexC]
  omega

theorem B64.b64_roundtrip (l : List Byte) : B64.b64Decode (B64.b64Encode l) = some l := by
  induction l using B64.b64Encode.induct with
  | case1 => rfl
  | case2 a =>
    simp [B64.b64Encode, B64.b64Decode, B64.charToSix_sixToChar, B64.deSexA_enc]
  | case3 a b =>
    simp [B64.b64Encode, B64.b64Decode, B64.charToSix_sixToChar, B64.sixToChar_ne_pad,
      B64.deSexA_enc, B64.deSexB_enc]
  | case4 a b c rest ih =>
    simp [B64.b64Encode, B64.b64Decode, B64.charToSix_sixToChar, B64.sixToChar_ne_pad,
      B64.deSexA_enc, B64.deSexB_enc, B64.deSexC_enc, ih]

theorem B64.b64Str_roundtrip (l : List Byte) :
    B64.b64DecodeStr (B64.b64EncodeStr l) = some l :=
  B64.b64_roundtrip l

theorem B64.b64EncodeStr_inj {l1 l2 : List Byte}
    (h : B64.b64EncodeStr l1 = B64.b64EncodeStr l2) : l1 = l2 := by
  have h1 := B64.b64Str_roundtrip l1
  rw [h, B64.b64Str_roundtrip l2] at h1
  exact (Option.some.inj h1).symm

/-! Helper lemmas: GCM structure. -/

theorem GCM.pad16_length (l : List Byte) : (GCM.pad16 l).length = 16 := by
  simp [GCM.pad16]

theorem GCM.ksBlocks_length (E : List Byte → List Byte) (nonce : List Byte) :
    ∀ k i, (GCM.ksBlocks E nonce k i).length = 16 * k := by
  intro k
  induction k with
  | zero => intro i; simp [GCM.ksBlocks]
  | succ n ih =>
    intro i
    simp [GCM.ksBlocks, GCM.pad16_length, ih]
    omega

theorem GCM.keystream_length (E : List Byte → List Byte) (nonce : List Byte) (n : Nat) :
    (GCM.keystream E nonce n).length = n := by
  simp [GCM.keystream, GCM.ksBlocks_length]
  omega

theorem GCM.byteXor_cancel (a b : Byte) : GCM.byteXor (GCM.byteXor a b) b = a := by
  apply Fin.ext
  show a.val ^^^ b.val ^^^ b.val = a.val
  rw [Nat.xor_assoc, Nat.xor_self, Nat.xor_zero]

theorem GCM.xorBytes_cancel :
    ∀ (xs ks : List Byte), xs.length ≤ ks.length →
      GCM.xorBytes (GCM.xorBytes xs ks) ks = xs
  | [], _, _ => by simp [GCM.xorBytes]
  | _ :: _, [], h => by simp at h
  | x :: xs, k :: ks, h => by
    simp only [GCM.xorBytes, List.zipWith_cons_cons, GCM.byteXor_cancel]
    exact congrArg (x :: ·) (GCM.xorBytes_cancel xs ks (by simpa using h))

theorem GCM.gcmSeal_ct_length (E : List Byte → List Byte)
    (nonce pt : List Byte) :
    (GCM.xorBytes pt (GCM.keystream E nonce pt.length)).length = pt.length := by
  simp [GCM.xorBytes, GCM.keystream_length]

theorem GCM.gcmOpen_gcmSeal (E : List Byte → List Byte)
    (tagF : List Byte → List Byte → List Byte) (nonce pt : List Byte) :
    GCM.gcmOpen E tagF nonce (GCM.gcmSeal E tagF nonce pt) = some pt := by
  have hct := GCM.gcmSeal_ct_length E nonce pt
  have htg := GCM.pad16_length (tagF nonce (GCM.xorBytes pt (GCM.keystream E nonce pt.length)))
  set ct := GCM.xorBytes pt (GCM.keystream E nonce pt.length) with hctdef
  set tg := GCM.pad16 (tagF nonce ct) with htgdef
  have hlen : (ct ++ tg).length = ct.length + 16 := by simp [htg]
  have hsub : (ct ++ tg).length - 16 = ct.length := by omega
  have htake : (ct ++ tg).take ((ct ++ tg).length - 16) = ct := by
    rw [hsub, List.take_left]
  have hdrop : (ct ++ tg).drop ((ct ++ tg).length - 16) = tg := by
    rw [hsub, List.drop_left]
  show GCM.gcmOpen E tagF nonce (ct ++ tg) = some pt
  rw [GCM.gcmOpen]
  rw [if_neg (by omega)]
  simp only [htake, hdrop, htgdef, if_pos rfl]
  rw [hct]
  exact congrArg some (GCM.xorBytes_cancel pt (GCM.keystream E nonce pt.length)
    (le_of_eq (GCM.keystream_length E nonce pt.length).symm))

/-! Helper lemmas: encrypt and decrypt wrappers. -/

theorem SessionManager.encrypt_eq (E : List Byte → List Byte → List Byte)
    (tagF : List Byte → List Byte → List Byte) (m : SessionManager) (key : List Byte)
    (hkey : m.encryptKey = some key) (hklen : key.length = 32) (nonce data : List Byte) :
    SessionManager.encrypt E tagF m nonce data =
      .ok (B64.b64EncodeStr (nonce ++ GCM.gcmSeal (E key) tagF nonce data)) := by
  simp [SessionManager.encrypt, hkey, hklen]

theorem SessionManager.decrypt_encrypt (E : List Byte → List Byte → List Byte)
    (tagF : List Byte → List Byte → List Byte) (m : SessionManager) (key : List Byte)
    (hkey : m.encryptKey = some key) (hklen : key.length = 32)
    (nonce : List Byte) (hn : nonce.length = 12) (data : List Byte) :
    SessionManager.decrypt E tagF m
      (B64.b64EncodeStr (nonce ++ GCM.gcmSeal (E key) tagF nonce data)) = .ok data := by
  have hct := GCM.gcmSeal_ct_length (E key) nonce data
  have hseal : (GCM.gcmSeal (E key) tagF nonce data).length = data.length + 16 := by
    simp [GCM.gcmSeal, GCM.pad16_length, hct]
  have hfull : (nonce ++ GCM.gcmSeal (E key) tagF nonce data).length = 12 + (data.length + 16) := by
    simp [hn, hseal]
  have htake : (nonce ++ GCM.gcmSeal (E key) tagF nonce data).take 12 = nonce := by
    rw [← hn, List.take_left]
  have hdrop : (nonce ++ GCM.gcmSeal (E key) tagF nonce data).drop 12 =
      GCM.gcmSeal (E key) tagF nonce data := by
    rw [← hn, List.drop_left]
  simp only [SessionManager.decrypt, hkey, hklen, B64.b64Str_roundtrip]
  rw [if_pos (by simp)]
  rw [if_neg (by omega)]
  rw [htake, hdrop, GCM.gcmOpen_gcmSeal]

/-! Helper lemmas: bounded queues and the fan-out handler. -/

theorem enqueueEvent_le (q : List MessageEvent) (e : MessageEvent)
    (h : q.length ≤ eventQueueCap) : (enqueueEvent q e).length ≤ eventQueueCap := by
  unfold enqueueEvent
  split
  · simp
    omega
  · exact h

theorem enqueueEvent_mono (q : List MessageEvent) (e : MessageEvent) :
    q.length ≤ (enqueueEvent q e).length := by
  unfold enqueueEvent
  split
  · simp
  · exact le_refl _

theorem enqueueEvent_grow (q : List MessageEvent) (e : MessageEvent)
    (h : q.length < eventQueueCap) : q.length < (enqueueEvent q e).length := by
  unfold enqueueEvent
  rw [if_pos h]
  simp

theorem foldl_enqueue_le (info : MessageInfo) (cs : List ContactMsg) :
    ∀ q : List MessageEvent, q.length ≤ eventQueueCap →
      (cs.foldl (fun acc ct => enqueueEvent acc ⟨"message", contactPayload info ct⟩) q).length
        ≤ eventQueueCap := by
  induction cs with
  | nil => intro q h; simpa using h
  | cons c cs ih =>
    intro q h
    simpa using ih (enqueueEvent q ⟨"message", contactPayload info c⟩) (enqueueEvent_le q _ h)

theorem foldl_enqueue_mono (info : MessageInfo) (cs : List ContactMsg) :
    ∀ q : List MessageEvent, q.length ≤
      (cs.foldl (fun acc ct => enqueueEvent acc ⟨"message", contactPayload info ct⟩) q).length := by
  induction cs with
  | nil => intro q; simp
  | cons c cs ih =>
    intro q
    calc q.length ≤ (enqueueEvent q ⟨"message", contactPayload info c⟩).length :=
          enqueueEvent_mono q _
      _ ≤ _ := by simpa using ih (enqueueEvent q ⟨"message", contactPayload info c⟩)

theorem handleEvent_le (q : List MessageEvent) (evt : WAEvent)
    (h : q.length ≤ eventQueueCap) : (handleEvent q evt).length ≤ eventQueueCap := by
  cases evt with
  | other => exact h
  | message info msg =>
    rw [handleEvent]
    have h1 : (match msg.contactsArrayMessage with
        | some cs => cs.foldl (fun acc ct => enqueueEvent acc ⟨"message", contactPayload info ct⟩) q
        | none => q).length ≤ eventQueueCap := by
      cases msg.contactsArrayMessage with
      | some cs => exact foldl_enqueue_le info cs q h
      | none => exact h
    split
    · exact enqueueEvent_le _ _ h1
    · exact h1

/-! Claim C2: AudioMessage handling. -/

/-- C2 counterexample: an inbound Message event carrying only a push-to-talk
AudioMessage produces no normalized payload at all; in particular no payload
with media_type ptt or audio is emitted and no download is triggered, so the
claim fails at this input. -/
theorem wa_c2_counterexample :
    handleEvent [] (.message info0 msgAudioOnly) = []
    ∧ msgAudioOnly.audioMessage = some { ptt := some true } :=
  ⟨rfl, rfl⟩

/-- C2 amended: inbound AudioMessage events are not handled by the fan-out:
for every Message event whose only content is an AudioMessage, handleEvent
leaves the event queue unchanged (no payload, no media_type, no is_ptt field
exists in the payload type, and no download is started). -/
theorem wa_c2_amended (q : List MessageEvent) (info : MessageInfo) (audio : AudioMsg) :
    handleEvent q (.message info { audioMessage := some audio }) = q := by
  rw [handleEvent]
  simp [msgHasContent]

/-! Claim C4: emission condition of the fan-out. -/

/-- C4 counterexample: a Message whose Conversation field is present but equal
to the empty string is enqueued as a payload that carries no non-empty content
field, contradicting the only-if direction of the claim. -/
theorem wa_c4_counterexample :
    handleEvent [] (.message info0 msgConvEmpty) = [⟨"message", basePayload info0⟩]
    ∧ specPayloadHasNonEmptyContent (basePayload info0) = false := by
  constructor
  · decide
  · decide

/-- C4 amended: with room in the queue, handleEvent enqueues at least one
payload iff one of the content branches matches (Conversation present,
ExtendedTextMessage text present, or an Image, Location, LiveLocation or
Contact message present) or a non-empty ContactsArrayMessage is present; a
matched branch whose fields are all empty still enqueues a payload. -/
theorem wa_c4_amended (q : List MessageEvent) (info : MessageInfo) (msg : WAMessage)
    (h : q.length < eventQueueCap) :
    q.length < (handleEvent q (.message info msg)).length ↔ contentBranchMatch msg = true := by
  rw [handleEvent]
  cases hc : msg.contactsArrayMessage with
  | none =>
    cases hmc : msgHasContent msg with
    | false => simp [contentBranchMatch, hc, hmc]
    | true =>
      simp only [hmc, if_true]
      simp only [contentBranchMatch, hc, hmc, Bool.true_or, iff_true]
      exact enqueueEvent_grow q _ h
  | some cs =>
    cases cs with
    | nil =>
      cases hmc : msgHasContent msg with
      | false => simp [contentBranchMatch, hc, hmc]
      | true =>
        simp only [hmc, if_true, List.foldl_nil]
        simp only [contentBranchMatch, hc, hmc, Bool.true_or, iff_true]
        exact enqueueEvent_grow q _ h
    | cons c cs' =>
      have hgrow : q.length <
          ((c :: cs').foldl
            (fun acc ct => enqueueEvent acc ⟨"message", contactPayload info ct⟩) q).length := by
        simp only [List.foldl_cons]
        exact lt_of_lt_of_le (enqueueEvent_grow q _ h) (foldl_enqueue_mono info cs' _)
      have hrhs : contentBranchMatch msg = true := by
        simp [contentBranchMatch, hc]
      rw [hrhs]
      simp only [iff_true]
      cases hmc : msgHasContent msg with
      | false => simpa [hmc] using hgrow
      | true =>
        simp only [hmc, if_true]
        exact lt_of_lt_of_le hgrow (enqueueEvent_mono _ _)

/-! Claim C10: single merged payload for non-contacts-array messages. -/

/-- C10: for every inbound Message event without a ContactsArrayMessage the
handler enqueues at most one payload, namely the single merged buildPayload
record in which later branches overwrite shared fields. -/
theorem wa_c10 (q : List MessageEvent) (info : MessageInfo) (msg : WAMessage)
    (h : msg.contactsArrayMessage = none) :
    handleEvent q (.message info msg) =
      (if msgHasContent msg then enqueueEvent q ⟨"message", buildPayload info msg⟩ else q)
    ∧ (handleEvent q (.message info msg)).length ≤ q.length + 1 := by
  have he : handleEvent q (.message info msg) =
      (if msgHasContent msg then enqueueEvent q ⟨"message", buildPayload info msg⟩ else q) := by
    rw [handleEvent]
    simp only [h]
  refine ⟨he, ?_⟩
  rw [he]
  split
  · unfold enqueueEvent
    split
    · simp
    · omega
  · omega

/-- C10 witness: a message carrying text and an image yields exactly one
merged payload. -/
theorem wa_c10_witness :
    handleEvent [] (.message info0 msgTextImage) =
      (if msgHasContent msgTextImage
        then enqueueEvent [] ⟨"message", buildPayload info0 msgTextImage⟩ else [])
    ∧ (handleEvent [] (.message info0 msgTextImage)).length ≤
        ([] : List MessageEvent).length + 1 :=
  wa_c10 [] info0 msgTextImage rfl

/-! Claim C7: bounded drop-newest queues. -/

/-- C7: the event queue and QR queue are bounded drop-newest buffers: the
capacities are 100 and 10, an enqueue never exceeds them, on overflow the new
item is discarded and the queue contents are unchanged, below capacity the
item is appended, and handleEvent preserves the event queue bound. -/
theorem wa_c7 (q : List MessageEvent) (e : MessageEvent) (qs : List String) (c : String)
    (hq : q.length ≤ eventQueueCap) (hqs : qs.length ≤ qrQueueCap) :
    eventQueueCap = 100 ∧ qrQueueCap = 10
    ∧ (enqueueEvent q e).length ≤ eventQueueCap
    ∧ (¬ q.length < eventQueueCap → enqueueEvent q e = q)
    ∧ (q.length < eventQueueCap → enqueueEvent q e = q ++ [e])
    ∧ (enqueueQR qs c).length ≤ qrQueueCap
    ∧ (¬ qs.length < qrQueueCap → enqueueQR qs c = qs)
    ∧ (qs.length < qrQueueCap → enqueueQR qs c = qs ++ [c])
    ∧ (∀ evt, (handleEvent q evt).length ≤ eventQueueCap) := by
  refine ⟨rfl, rfl, enqueueEvent_le q e hq, ?_, ?_, ?_, ?_, ?_,
    fun evt => handleEvent_le q evt hq⟩
  · intro hfull
    unfold enqueueEvent
    rw [if_neg hfull]
  · intro hlt
    unfold enqueueEvent
    rw [if_pos hlt]
  · unfold enqueueQR
    split
    · simp
      omega
    · exact hqs
  · intro hfull
    unfold enqueueQR
    rw [if_neg hfull]
  · intro hlt
    unfold enqueueQR
    rw [if_pos hlt]

/-- C7 witness: at capacity both queues drop the new element unchanged. -/
theorem wa_c7_witness :
    enqueueEvent (List.replicate 100 ev0) ev0 = List.replicate 100 ev0
    ∧ enqueueQR (List.replicate 10 "qr") "qr" = List.replicate 10 "qr" := by
  have h := wa_c7 (List.replicate 100 ev0) ev0 (List.replicate 10 "qr") "qr"
    (by simp [eventQueueCap]) (by simp [qrQueueCap])
  exact ⟨h.2.2.2.1 (by simp [eventQueueCap]), h.2.2.2.2.2.2.1 (by simp [qrQueueCap])⟩

/-! Claim C1: POST /media/download behavior. -/

/-- C1 counterexample: with a valid session, a logged-in client and a valid
media descriptor whose message is not cached (the handler has no cache and no
message_id field at all), a failing download produces HTTP 500 after exactly
one Download attempt, not five. -/
theorem wa_c1_counterexample :
    (downloadMediaHandler (mgrWith 7 (sessionLive 7)) "POST" (some req1)
      (.error "CDN 404")).downloadAttempts = 1
    ∧ (downloadMediaHandler (mgrWith 7 (sessionLive 7)) "POST" (some req1)
      (.error "CDN 404")).status = 500 :=
  ⟨rfl, rfl⟩

/-- C1 amended: for every valid POST /media/download request resolving to a
logged-in session, the handler issues exactly one Download call with no cache
lookup, no retries and no backoff; an error on that single call yields HTTP
500 at once, and success yields 200 with the base64 payload (even for a
zero-byte result). -/
theorem wa_c1_amended (m : SessionManager) (req : MediaDownloadReq) (s : UserSession)
    (dl : Except String (List Byte)) (hs : m.sessions req.userID = some s)
    (hlog : s.client.loggedIn = true) :
    (downloadMediaHandler m "POST" (some req) dl).downloadAttempts = 1
    ∧ (∀ e, dl = .error e → (downloadMediaHandler m "POST" (some req) dl).status = 500)
    ∧ (∀ d, dl = .ok d → (downloadMediaHandler m "POST" (some req) dl).status = 200
        ∧ (downloadMediaHandler m "POST" (some req) dl).body
            = .mediaData (B64.b64EncodeStr d) req.mimeType d.length) := by
  unfold downloadMediaHandler
  rw [if_neg (by simp)]
  simp only [hs, hlog]
  cases dl with
  | error e => simp
  | ok d => simp

/-- C1 witness: the amended theorem applied to a concrete logged-in session
and a successful one-byte download. -/
theorem wa_c1_witness :
    (downloadMediaHandler (mgrWith 7 (sessionLive 7)) "POST" (some req1)
      (.ok [9])).downloadAttempts = 1
    ∧ (downloadMediaHandler (mgrWith 7 (sessionLive 7)) "POST" (some req1)
      (.ok [9])).status = 200 := by
  have h := wa_c1_amended (mgrWith 7 (sessionLive 7)) req1 (sessionLive 7) (.ok [9]) rfl rfl
  exact ⟨h.1, (h.2.2 [9] rfl).1⟩

/-! Claim C3: user_id validation. -/

/-- Helper: POST /sessions never rejects user_id 0; whenever session creation
succeeds the handler proceeds and a session keyed by 0 exists afterwards. -/
theorem createSession_zero_accepted (m : SessionManager) (uid : Nat) (o : CreateOracle)
    (env : ClientEnv) (dev : Option String) (hstore : o.storeDevice = .ok dev) :
    ((createSessionHandler m "POST" (some uid) o env).status = 200
      ∨ (createSessionHandler m "POST" (some uid) o env).status = 500)
    ∧ ((createSessionHandler m "POST" (some uid) o env).manager.sessions uid).isSome = true := by
  unfold createSessionHandler
  rw [if_neg (by simp)]
  cases hm : m.sessions uid with
  | some s =>
    simp only [getOrCreateSession, hm]
    cases hdev : s.client.deviceId with
    | none => cases henv : env.connectResult <;> simp [hdev, henv]
    | some ph =>
      cases hconn : s.client.connected <;> cases henv : env.connectResult <;>
        simp [hdev, hconn, henv]
  | none =>
    simp only [getOrCreateSession, hm, hstore]
    cases dev with
    | none => cases henv : env.connectResult <;> simp [freshSession, henv]
    | some ph => cases henv : env.connectResult <;> simp [freshSession, henv]

/-- C3 counterexample: POST /sessions with user_id 0 (an empty manager, a
successfully opened store, a successful Connect) is answered 200 needs_qr and
a session for user 0 is created, not rejected with 400. -/
theorem wa_c3_counterexample :
    (createSessionHandler mgrEmpty "POST" (some 0) oracleFresh envOk).status = 200
    ∧ (createSessionHandler mgrEmpty "POST" (some 0) oracleFresh envOk).body = .needsQR 0
    ∧ ((createSessionHandler mgrEmpty "POST" (some 0) oracleFresh envOk).manager.sessions 0).isSome
        = true :=
  ⟨rfl, rfl, rfl⟩

/-- C3 amended: every handler that parses user_id from the query string (QR,
status, save, events, delete, chats, group info, group participants) answers
400 on a missing or zero user_id, but the handlers reading user_id from the
JSON body perform no user_id validation: POST /sessions with user_id 0 never
returns 400 and installs a session for user 0, while the remaining body
handlers (messages send, react, typing, image, location and media download)
fall through to the session lookup and answer 404 session-not-found for
user_id 0 when no session for user 0 exists. -/
theorem wa_c3_amended (m : SessionManager) (o : CreateOracle) (env : ClientEnv)
    (dev : Option String) (hstore : o.storeDevice = .ok dev) :
    (getQRHandlerStatus m 0 = 400
      ∧ getStatusHandlerStatus 0 = 400
      ∧ saveSessionHandlerStatus 0 = 400
      ∧ eventsHandlerStatus m 0 = 400
      ∧ (deleteSessionHandler m "DELETE" 0 (.ok ())).status = 400
      ∧ getChatsHandlerStatus m 0 = 400
      ∧ (∀ gj jv ir, getGroupInfoHandlerStatus m 0 gj jv ir = 400)
      ∧ (∀ gj jv ir, listGroupParticipantsHandlerStatus m 0 gj jv ir = 400))
    ∧ ((createSessionHandler m "POST" (some 0) o env).status ≠ 400
      ∧ ((createSessionHandler m "POST" (some 0) o env).manager.sessions 0).isSome = true)
    ∧ (m.sessions 0 = none →
        (∀ req : SendMessageReq, req.userID = 0 → ∀ jv sr,
          sendMessageHandlerStatus m "POST" (some req) jv sr = 404)
        ∧ (∀ req : SendReactionReq, req.userID = 0 → ∀ jv sr,
          sendReactionHandlerStatus m "POST" (some req) jv sr = 404)
        ∧ (∀ req : SetTypingReq, req.userID = 0 → ∀ jv pr,
          setTypingHandlerStatus m "POST" (some req) jv pr = 404)
        ∧ (∀ req : SendImageReq, req.userID = 0 → ∀ jv idec ur sr,
          sendImageHandlerStatus m "POST" (some req) jv idec ur sr = 404)
        ∧ (∀ req : SendLocationReq, req.userID = 0 → ∀ jv sr,
          sendLocationHandlerStatus m "POST" (some req) jv sr = 404)
        ∧ (∀ req : MediaDownloadReq, req.userID = 0 → ∀ dl,
          (downloadMediaHandler m "POST" (some req) dl).status = 404)) := by
  have h := createSession_zero_accepted m 0 o env dev hstore
  refine ⟨⟨rfl, rfl, rfl, rfl, rfl, rfl, fun gj jv ir => rfl, fun gj jv ir => rfl⟩,
    ⟨?_, h.2⟩, ?_⟩
  · rcases h.1 with h200 | h500
    · omega
    · omega
  · intro hnone
    refine ⟨?_, ?_, ?_, ?_, ?_, ?_⟩
    · intro req hreq jv sr
      simp [sendMessageHandlerStatus, hreq, hnone]
    · intro req hreq jv sr
      simp [sendReactionHandlerStatus, hreq, hnone]
    · intro req hreq jv pr
      simp [setTypingHandlerStatus, hreq, hnone]
    · intro req hreq jv idec ur sr
      simp [sendImageHandlerStatus, hreq, hnone]
    · intro req hreq jv sr
      simp [sendLocationHandlerStatus, hreq, hnone]
    · intro req hreq dl
      simp [downloadMediaHandler, hreq, hnone]

/-- C3 witness: the amended theorem applied to an empty manager with a fresh
store and a successful Connect, exercising a query handler, a group handler,
session creation for user 0 and a body handler answering 404. -/
theorem wa_c3_witness :
    getQRHandlerStatus mgrEmpty 0 = 400
    ∧ getChatsHandlerStatus mgrEmpty 0 = 400
    ∧ getGroupInfoHandlerStatus mgrEmpty 0 "g@g.us" true (.ok ()) = 400
    ∧ (createSessionHandler mgrEmpty "POST" (some 0) oracleFresh envOk).status ≠ 400
    ∧ sendMessageHandlerStatus mgrEmpty "POST"
        (some { userID := 0, chatJID := "c@s.whatsapp.net", text := "hi" }) true (.ok ())
        = 404 := by
  have h := wa_c3_amended mgrEmpty oracleFresh envOk none rfl
  exact ⟨h.1.1, h.1.2.2.2.2.2.1, h.1.2.2.2.2.2.2.1 "g@g.us" true (.ok ()), h.2.1.1,
    (h.2.2 rfl).1 _ rfl true (.ok ())⟩

/-! Claim C8: POST /sessions on a paired session. -/

/-- C8 counterexample: a paired but disconnected session whose Connect call
fails is answered 500 with the upstream error, not with status connected. -/
theorem wa_c8_counterexample :
    (createSessionHandler (mgrWith 7 (sessionPairedDown 7)) "POST" (some 7) oracleNoop
      envFail).status = 500
    ∧ (createSessionHandler (mgrWith 7 (sessionPairedDown 7)) "POST" (some 7) oracleNoop
      envFail).body = .errorMsg "websocket dial failed" :=
  ⟨rfl, rfl⟩

/-- C8 amended: POST /sessions on an existing session whose store holds a
device id never obtains a QR event stream and leaves the stored session
unchanged except for LastUsed (in particular qr_codes and login_done are
untouched); it responds 200 connected with the phone when the client is
already connected or Connect succeeds, and 500 when Connect fails. -/
theorem wa_c8_amended (m : SessionManager) (uid : Nat) (o : CreateOracle) (env : ClientEnv)
    (s : UserSession) (phone : String) (hs : m.sessions uid = some s)
    (hdev : s.client.deviceId = some phone) :
    (createSessionHandler m "POST" (some uid) o env).qrChannelObtained = false
    ∧ (createSessionHandler m "POST" (some uid) o env).manager.sessions uid
        = some { s with lastUsed := o.now }
    ∧ (s.client.connected = true →
        (createSessionHandler m "POST" (some uid) o env).status = 200
        ∧ (createSessionHandler m "POST" (some uid) o env).body = .connected uid phone)
    ∧ (env.connectResult = .ok () →
        (createSessionHandler m "POST" (some uid) o env).status = 200
        ∧ (createSessionHandler m "POST" (some uid) o env).body = .connected uid phone)
    ∧ (∀ e, s.client.connected = false → env.connectResult = .error e →
        (createSessionHandler m "POST" (some uid) o env).status = 500) := by
  unfold createSessionHandler
  rw [if_neg (by simp)]
  simp only [getOrCreateSession, hs, hdev]
  cases hconn : s.client.connected <;> cases henv : env.connectResult <;> simp_all

/-- C8 witness: the amended theorem applied to a connected paired session. -/
theorem wa_c8_witness :
    (createSessionHandler (mgrWith 7 (sessionLive 7)) "POST" (some 7) oracleNoop
      envOk).qrChannelObtained = false
    ∧ (createSessionHandler (mgrWith 7 (sessionLive 7)) "POST" (some 7) oracleNoop
      envOk).status = 200 := by
  have h := wa_c8_amended (mgrWith 7 (sessionLive 7)) 7 oracleNoop envOk (sessionLive 7)
    "15551234567" rfl rfl
  exact ⟨h.1, (h.2.2.1 rfl).1⟩

/-! Claim C9: DELETE /sessions/delete semantics. -/

/-- C9: for every positive user id, DELETE /sessions/delete responds 200
disconnected and leaves no session for that user: a present session is
disconnected, its backup save is attempted and the entry is deleted whatever
the save outcome; an absent session makes the call a no-op with the same
response. -/
theorem wa_c9 (m : SessionManager) (uid : Nat) (saveResult : Except String Unit)
    (h : uid ≠ 0) :
    (deleteSessionHandler m "DELETE" uid saveResult).status = 200
    ∧ (deleteSessionHandler m "DELETE" uid saveResult).body = "disconnected"
    ∧ (deleteSessionHandler m "DELETE" uid saveResult).manager.sessions uid = none
    ∧ ((m.sessions uid).isSome = true →
        (deleteSessionHandler m "DELETE" uid saveResult).disconnectCalled = true
        ∧ (deleteSessionHandler m "DELETE" uid saveResult).saveAttempted = true)
    ∧ (m.sessions uid = none → (deleteSessionHandler m "DELETE" uid saveResult).manager = m) := by
  unfold deleteSessionHandler
  rw [if_neg (by simp)]
  rw [if_neg h]
  cases hm : m.sessions uid with
  | some s => simp [removeSession, hm]
  | none => simp [removeSession, hm]

/-- C9 witness: deleting an existing session with a failing backup save still
responds 200 and removes the entry. -/
theorem wa_c9_witness :
    (deleteSessionHandler (mgrWith 7 (sessionLive 7)) "DELETE" 7
      (.error "save failed")).status = 200
    ∧ (deleteSessionHandler (mgrWith 7 (sessionLive 7)) "DELETE" 7
      (.error "save failed")).manager.sessions 7 = none
    ∧ (deleteSessionHandler (mgrWith 7 (sessionLive 7)) "DELETE" 7
      (.error "save failed")).disconnectCalled = true := by
  have h := wa_c9 (mgrWith 7 (sessionLive 7)) 7 (.error "save failed") (by decide)
  exact ⟨h.1, h.2.2.1, (h.2.2.2.1 rfl).1⟩

/-! Claim C5: encrypt and decrypt round-trip, nonce-distinct ciphertexts. -/

/-- C5: with a 32-byte key configured, for every byte sequence x and every
block cipher and tag primitive, a successful encrypt of x followed by decrypt
yields x byte-for-byte, and encryptions under distinct (fresh) 12-byte nonces
produce distinct ciphertexts. -/
theorem wa_c5 (E tagF : List Byte → List Byte → List Byte) (m : SessionManager)
    (key : List Byte) (hkey : m.encryptKey = some key) (hklen : key.length = 32)
    (n1 n2 x : List Byte) (h1 : n1.length = 12) (h2 : n2.length = 12) :
    (∀ ct, SessionManager.encrypt E tagF m n1 x = .ok ct →
        SessionManager.decrypt E tagF m ct = .ok x)
    ∧ (n1 ≠ n2 →
        SessionManager.encrypt E tagF m n1 x ≠ SessionManager.encrypt E tagF m n2 x) := by
  constructor
  · intro ct hct
    rw [SessionManager.encrypt_eq E tagF m key hkey hklen n1 x] at hct
    rw [← Except.ok.inj hct]
    exact SessionManager.decrypt_encrypt E tagF m key hkey hklen n1 h1 x
  · intro hne heq
    rw [SessionManager.encrypt_eq E tagF m key hkey hklen n1 x,
        SessionManager.encrypt_eq E tagF m key hkey hklen n2 x] at heq
    have hlist := B64.b64EncodeStr_inj (Except.ok.inj heq)
    have e1 : (n1 ++ GCM.gcmSeal (E key) tagF n1 x).take 12 = n1 := by
      rw [← h1, List.take_left]
    have e2 : (n2 ++ GCM.gcmSeal (E key) tagF n2 x).take 12 = n2 := by
      rw [← h2, List.take_left]
    have htake := congrArg (List.take 12) hlist
    rw [e1, e2] at htake
    exact hne htake

/-- C5 witness: a concrete round-trip and a concrete nonce-distinctness
instance with the identity block cipher, a 32-byte zero key and 12-byte
nonces. -/
theorem wa_c5_witness :
    SessionManager.decrypt idCipher zeroTag mgrKeyed
      (B64.b64EncodeStr (nonceA ++ GCM.gcmSeal (idCipher key32) zeroTag nonceA ptSample))
      = .ok ptSample
    ∧ SessionManager.encrypt idCipher zeroTag mgrKeyed nonceA ptSample
        ≠ SessionManager.encrypt idCipher zeroTag mgrKeyed nonceB ptSample := by
  have h := wa_c5 idCipher zeroTag mgrKeyed key32 rfl (by decide) nonceA nonceB ptSample
    (by decide) (by decide)
  exact ⟨h.1 _ (SessionManager.encrypt_eq idCipher zeroTag mgrKeyed key32 rfl (by decide)
    nonceA ptSample), h.2 (by decide)⟩

/-! Claim C6: invalid WHATSAPP_SESSION_KEY disables persistence. -/

/-- C6: for every WHATSAPP_SESSION_KEY value that is not valid base64 or whose
decoding is not exactly 32 bytes, NewSessionManager still constructs a manager
(total function, no crash), its encryption key is unset, and persistence is
disabled: encrypt and decrypt return an error. -/
theorem wa_c6 (dataDir joBotURL keyB64 : String)
    (h : B64.b64DecodeStr keyB64 = none
      ∨ ∃ k, B64.b64DecodeStr keyB64 = some k ∧ k.length ≠ 32) :
    (NewSessionManager dataDir joBotURL keyB64).encryptKey = none
    ∧ (∀ E tagF nonce data,
        SessionManager.encrypt E tagF (NewSessionManager dataDir joBotURL keyB64) nonce data
          = .error "no encryption key")
    ∧ (∀ E tagF s,
        SessionManager.decrypt E tagF (NewSessionManager dataDir joBotURL keyB64) s
          = .error "no encryption key") := by
  have hk : (NewSessionManager dataDir joBotURL keyB64).encryptKey = none := by
    simp only [NewSessionManager]
    split
    · rfl
    · rcases h with hnone | ⟨k, hkk, hlen⟩
      · simp [hnone]
      · simp [hkk, hlen]
  refine ⟨hk, ?_, ?_⟩
  · intro E tagF nonce data
    simp [SessionManager.encrypt, hk]
  · intro E tagF s
    simp [SessionManager.decrypt, hk]

/-- C6 witness: a key that is not valid base64 leaves the key unset and makes
encrypt fail. -/
theorem wa_c6_witness :
    (NewSessionManager "/data/whatsapp" "" "%%%").encryptKey = none
    ∧ SessionManager.encrypt idCipher zeroTag (NewSessionManager "/data/whatsapp" "" "%%%")
        nonceA ptSample = .error "no encryption key" := by
  have h := wa_c6 "/data/whatsapp" "" "%%%" (Or.inl (by decide))
  exact ⟨h.1, h.2.1 idCipher zeroTag nonceA ptSample⟩

/-- C4 witness: the amended equivalence applied to the empty queue and the
empty-Conversation message. -/
theorem wa_c4_witness :
    (([] : List MessageEvent).length
        < (handleEvent [] (.message info0 msgConvEmpty)).length)
      ↔ contentBranchMatch msgConvEmpty = true :=
  wa_c4_amended [] info0 msgConvEmpty (by decide)
